import Mathlib

/-!
Verification of the ChurnGuard autonomous intervention engine.

This file gives a shallow embedding of the decision/control logic of the
Sentinel Loop (`src/server/sentinel.js`), the Optimizer attribution worker
(`optimizer.js`) and the configuration counters (`lib/sentinelConfig.js`),
together with theorems about the behaviour of those functions.

Modelling conventions:
* risk scores and thresholds are rationals (`Rat`), timestamps are integer
  milliseconds since the epoch (`Int`);
* the Supabase `interventions` table is a `List InterventionRecord`;
* database queries that can fail, insert failures and clock reads are
  supplied per processed item through explicit environment structures
  (`StepEnv`, `AttrEnv`);
* column defaults come from `sql/create_interventions.sql` and
  `sql/add_outcome_columns.sql`: `outcome` defaults to `'pending'`,
  `risk_delta`, `risk_at_intervention`, `current_risk`, `attributed_at`
  default to NULL.
-/

namespace ChurnGuard

/-- Persisted `action_type` column: constrained to nudge/support/offer. -/
inductive ActionType
  | nudge
  | support
  | offer
deriving DecidableEq, Repr

/-- Persisted `source` column: constrained to manual/sentinel/api. -/
inductive Source
  | manual
  | sentinel
  | api
deriving DecidableEq, Repr

/-- Persisted `status` column: constrained to pending/completed/failed. -/
inductive Status
  | pending
  | completed
  | failed
deriving DecidableEq, Repr

/-- Persisted `outcome` column: constrained to pending/success/failure. -/
inductive Outcome
  | pending
  | success
  | failure
deriving DecidableEq, Repr

/-- One row of the `interventions` table. -/
structure InterventionRecord where
  id : Nat
  userId : String
  actionType : ActionType
  source : Source
  status : Status
  createdAt : Int
  completedAt : Option Int
  riskAtIntervention : Option Rat
  outcome : Outcome
  riskDelta : Option Rat
  currentRisk : Option Rat
  attributedAt : Option Int
deriving DecidableEq, Repr

/-- The tiered risk thresholds of the sentinel configuration. -/
structure Thresholds where
  nudge : Rat
  support : Rat
  offer : Rat
deriving DecidableEq, Repr

/-- The sentinel configuration fields consulted by `runSentinelCycle`. -/
structure SentinelConfig where
  enabled : Bool
  dryRun : Bool
  thresholds : Thresholds
  maxActionsPerRun : Nat
  cooldownHours : Int
  humanPriorityHours : Int
deriving DecidableEq, Repr

/-- Internal action classification returned by `getActionType`. -/
inductive SentinelAction
  | AUTO_NUDGE
  | AUTO_SUPPORT
  | AUTO_OFFER
deriving DecidableEq, Repr

/-- One entry of the batch returned by `fetchUsersInChunks`. -/
structure UserRisk where
  userId : String
  churnProbability : Rat
deriving DecidableEq, Repr

/-- Milliseconds per hour: the `hours * 60 * 60 * 1000` factor in the code. -/
def msPerHour : Int := 3600000

/-- `getActionType` from sentinel.js: highest threshold met, else null. -/
def getActionType (probability : Rat) (thresholds : Thresholds) :
    Option SentinelAction :=
  if thresholds.offer ≤ probability then some .AUTO_OFFER
  else if thresholds.support ≤ probability then some .AUTO_SUPPORT
  else if thresholds.nudge ≤ probability then some .AUTO_NUDGE
  else none

/-- `actionType.replace('AUTO_', '').toLowerCase()` in `persistIntervention`. -/
def persistedActionType : SentinelAction → ActionType
  | .AUTO_NUDGE => .nudge
  | .AUTO_SUPPORT => .support
  | .AUTO_OFFER => .offer

/-- `hasRecentIntervention` from sentinel.js: any-source record for the user
with `created_at ≥ now - hours`; a query error returns `true`
("err on side of caution"). -/
def hasRecentIntervention (ledger : List InterventionRecord) (err : Bool)
    (userId : String) (now hours : Int) : Bool :=
  if err then true
  else ledger.any fun r =>
    decide (r.userId = userId) && decide (now - hours * msPerHour ≤ r.createdAt)

/-- `hasManualIntervention` from sentinel.js: `source = 'manual'` record for
the user with `created_at ≥ now - hours`; a query error returns `true`. -/
def hasManualIntervention (ledger : List InterventionRecord) (err : Bool)
    (userId : String) (now hours : Int) : Bool :=
  if err then true
  else ledger.any fun r =>
    decide (r.userId = userId) && decide (r.source = Source.manual) &&
      decide (now - hours * msPerHour ≤ r.createdAt)

/-- The row inserted by `persistIntervention` when `dryRun` is false: the
insert supplies `user_id`, `action_type`, `status = 'completed'`,
`source = 'sentinel'`, `completed_at = now`; every other column takes its
schema default (`created_at = NOW()`, `outcome = 'pending'`,
`risk_at_intervention`, `risk_delta`, `current_risk`, `attributed_at` NULL). -/
def sentinelRecord (id : Nat) (userId : String) (action : SentinelAction)
    (now : Int) : InterventionRecord where
  id := id
  userId := userId
  actionType := persistedActionType action
  source := .sentinel
  status := .completed
  createdAt := now
  completedAt := some now
  riskAtIntervention := none
  outcome := .pending
  riskDelta := none
  currentRisk := none
  attributedAt := none

/-- Per-user environment of one sentinel loop iteration: whether each ledger
query errors, whether the insert fails, and the clock readings taken at the
gate checks (`checkNow`) and at the insert (`insertNow`). -/
structure StepEnv where
  cooldownErr : Bool
  manualErr : Bool
  insertErr : Bool
  checkNow : Int
  insertNow : Int
deriving DecidableEq, Repr

/-- A `SENTINEL_ACTION` event emitted by `emitSentinelAction`. -/
structure SentinelEvent where
  userId : String
  action : SentinelAction
  dryRun : Bool
deriving DecidableEq, Repr

/-- Mutable state threaded through one sentinel cycle: the ledger, the
per-cycle counter `actionsThisCycle`, the daily counter `stats.actionsToday`
(bumped by `incrementActions` in sentinelConfig.js), the next fresh row id,
and the emitted events. -/
structure CycleState where
  ledger : List InterventionRecord
  actionsThisCycle : Nat
  actionsToday : Nat
  nextId : Nat
  events : List SentinelEvent
deriving DecidableEq, Repr

/-- The body of the `for (const user of users)` loop in `runSentinelCycle`,
after the rate-limit break: classify, cooldown gate, human-priority gate,
persist, and on success bump the counters and emit the event
(`incrementActions()` runs only when `!config.dryRun`). -/
def stepUser (cfg : SentinelConfig) (u : UserRisk) (e : StepEnv)
    (st : CycleState) : CycleState :=
  match getActionType u.churnProbability cfg.thresholds with
  | none => st
  | some a =>
    if hasRecentIntervention st.ledger e.cooldownErr u.userId e.checkNow
        cfg.cooldownHours then st
    else if hasManualIntervention st.ledger e.manualErr u.userId e.checkNow
        cfg.humanPriorityHours then st
    else if cfg.dryRun then
      { st with
        actionsThisCycle := st.actionsThisCycle + 1
        events := ⟨u.userId, a, true⟩ :: st.events }
    else if e.insertErr then st
    else
      { st with
        ledger := sentinelRecord st.nextId u.userId a e.insertNow :: st.ledger
        nextId := st.nextId + 1
        actionsThisCycle := st.actionsThisCycle + 1
        actionsToday := st.actionsToday + 1
        events := ⟨u.userId, a, false⟩ :: st.events }

/-- The user loop of `runSentinelCycle`: stop (break) as soon as
`actionsThisCycle >= config.maxActionsPerRun`, otherwise process the head
user and continue. -/
def runCycleLoop (cfg : SentinelConfig) :
    List (UserRisk × StepEnv) → CycleState → CycleState
  | [], st => st
  | (u, e) :: rest, st =>
    if cfg.maxActionsPerRun ≤ st.actionsThisCycle then st
    else runCycleLoop cfg rest (stepUser cfg u e st)

/-- `runSentinelCycle`: exits immediately when disabled, otherwise runs the
user loop starting from `actionsThisCycle = 0`. -/
def runSentinelCycle (cfg : SentinelConfig) (users : List (UserRisk × StepEnv))
    (ledger : List InterventionRecord) (actionsToday nextId : Nat) :
    CycleState :=
  if cfg.enabled then runCycleLoop cfg users ⟨ledger, 0, actionsToday, nextId, []⟩
  else ⟨ledger, 0, actionsToday, nextId, []⟩

/-- JavaScript `intervention.risk_at_intervention || 0.5`: both SQL NULL and
the falsy value 0 fall back to 0.5. -/
def jsOrHalf : Option Rat → Rat
  | none => 1/2
  | some r => if r = 0 then 1/2 else r

/-- `determineOutcome` from optimizer.js. -/
def determineOutcome (riskAtIntervention currentRisk : Rat)
    (isChurned : Bool) : Outcome :=
  if isChurned then .failure
  else if currentRisk - riskAtIntervention ≤ -(1/5 : Rat) then .success
  else .pending

/-- Per-cycle environment of `runAttributionCycle`: the clock reading, the
result of `getCurrentRisk` per user (`none` = no risk data), whether the
row update fails, and which rows fall inside the `limit(100)` batch. -/
structure AttrEnv where
  now : Int
  risk : String → Option (Rat × Bool)
  updateErr : Nat → Bool
  chosen : Nat → Bool

/-- The selection filter of the attribution query: `attributed_at IS NULL`
and `created_at` between `now - 50h` and `now - 46h`. -/
def selectedForAttribution (now : Int) (r : InterventionRecord) : Bool :=
  decide (r.attributedAt = none) &&
    decide (now - 50 * msPerHour ≤ r.createdAt) &&
    decide (r.createdAt ≤ now - 46 * msPerHour)

/-- Processing of one row by `runAttributionCycle`: rows outside the query
window or batch are untouched; a row with no risk data or a failed update is
skipped; otherwise `outcome`, `risk_delta`, `current_risk` and
`attributed_at` are all written, whatever outcome `determineOutcome`
returned. -/
def attributeRecord (env : AttrEnv) (r : InterventionRecord) :
    InterventionRecord :=
  if selectedForAttribution env.now r && env.chosen r.id then
    match env.risk r.userId with
    | none => r
    | some (currentRisk, isChurned) =>
      if env.updateErr r.id then r
      else
        let riskAtIntervention := jsOrHalf r.riskAtIntervention
        { r with
          outcome := determineOutcome riskAtIntervention currentRisk isChurned
          riskDelta := some (currentRisk - riskAtIntervention)
          currentRisk := some currentRisk
          attributedAt := some env.now }
  else r

/-- One optimizer attribution cycle over the whole ledger. -/
def runAttributionCycle (env : AttrEnv) (ledger : List InterventionRecord) :
    List InterventionRecord :=
  ledger.map (attributeRecord env)

/-- The ledger invariant as the specification states it: `attributedAt` is
non-null iff `outcome` is not pending, and the three attribution fields stay
null while the outcome is pending. -/
def ledgerInvStrict (r : InterventionRecord) : Prop :=
  (r.attributedAt ≠ none ↔ r.outcome ≠ Outcome.pending) ∧
  (r.outcome = Outcome.pending →
    r.riskDelta = none ∧ r.currentRisk = none ∧ r.attributedAt = none)

/-- The ledger invariant the code actually maintains: a non-pending outcome
has `attributedAt` set, and `riskDelta` and `currentRisk` are null exactly
when `attributedAt` is. -/
def recordInv (r : InterventionRecord) : Prop :=
  (r.outcome ≠ Outcome.pending → r.attributedAt ≠ none) ∧
  (r.riskDelta = none ↔ r.attributedAt = none) ∧
  (r.currentRisk = none ↔ r.attributedAt = none)

/-- Two rows are cooldown-compatible for a window of `hoursMs` milliseconds:
if both are sentinel-sourced rows of the same user, their creation times are
at least `hoursMs` apart. -/
def farOK (hoursMs : Int) (a b : InterventionRecord) : Prop :=
  a.source = Source.sentinel → b.source = Source.sentinel →
    a.userId = b.userId →
      hoursMs ≤ a.createdAt - b.createdAt ∨ hoursMs ≤ b.createdAt - a.createdAt

/-- Default thresholds from sentinelConfig.js. -/
def tDefault : Thresholds := ⟨85/100, 9/10, 95/100⟩

/-- An enabled, non-dry-run configuration with the default parameters. -/
def cfgLive : SentinelConfig := ⟨true, false, tDefault, 10, 24, 12⟩

/-- The same configuration in dry-run mode. -/
def cfgDry : SentinelConfig := { cfgLive with dryRun := true }

/-- An error-free step environment. -/
def envOk : StepEnv := ⟨false, false, false, 1000000, 1000000⟩

/-- A step environment whose cooldown-gate ledger query errors. -/
def envErr : StepEnv := ⟨true, false, false, 1000000, 1000000⟩

/-- The cycle state over an empty ledger with counters at zero. -/
def stEmpty : CycleState := ⟨[], 0, 0, 0, []⟩

/-- A user whose churn probability 0.97 clears the offer threshold. -/
def uHigh : UserRisk := ⟨"u1", 97/100⟩

/-- A freshly inserted sentinel row, created at time 0. -/
def rPending : InterventionRecord := sentinelRecord 0 "u1" SentinelAction.AUTO_OFFER 0

/-- An already attributed row with a terminal outcome. -/
def rDone : InterventionRecord :=
  { rPending with
    outcome := Outcome.success
    riskDelta := some 0
    currentRisk := some (1/2)
    attributedAt := some 10 }

/-- An attribution environment running 48 hours after `rPending` was
created, finding every user at current risk 0.5 and not churned, with no
update errors and every row inside the batch. -/
def attrEnv0 : AttrEnv :=
  ⟨48 * msPerHour, fun _ => some (1/2, false), fun _ => false, fun _ => true⟩

/-- C3: `determineOutcome` returns failure whenever `isChurned` is true,
regardless of the delta; otherwise success exactly when
`currentRisk - riskAtIntervention ≤ -0.20`, and pending above that bound —
in particular a delta of -0.199999 stays pending. -/
theorem determineOutcome_spec :
    (∀ riskAt cur : Rat, determineOutcome riskAt cur true = Outcome.failure) ∧
    (∀ riskAt cur : Rat, cur - riskAt ≤ -(1/5 : Rat) →
      determineOutcome riskAt cur false = Outcome.success) ∧
    (∀ riskAt cur : Rat, -(1/5 : Rat) < cur - riskAt →
      determineOutcome riskAt cur false = Outcome.pending) ∧
    determineOutcome (1/2) (300001/1000000) false = Outcome.pending := by
  refine ⟨fun riskAt cur => rfl, fun riskAt cur h => ?_, fun riskAt cur h => ?_,
    by norm_num [determineOutcome]⟩
  · unfold determineOutcome
    rw [if_neg Bool.false_ne_true, if_pos h]
  · unfold determineOutcome
    rw [if_neg Bool.false_ne_true, if_neg (not_le.mpr h)]

/-- Witness for C3 at the spec scenario: risk 0.80 at intervention, current
risk 0.55, not churned, delta -0.25 yields success. -/
theorem determineOutcome_spec_witness :
    (11/20 : Rat) - 4/5 ≤ -(1/5 : Rat) ∧
    determineOutcome (4/5) (11/20) false = Outcome.success :=
  ⟨by norm_num, determineOutcome_spec.2.1 (4/5) (11/20) (by norm_num)⟩

/-- C10: when the cooldown-gate or human-priority-gate ledger query errors,
the sentinel treats the user as recently contacted and the whole loop body
is a no-op for that user: no record, no counter change, no event. -/
theorem gateError_skips (cfg : SentinelConfig) (u : UserRisk) (e : StepEnv)
    (st : CycleState) (h : e.cooldownErr = true ∨ e.manualErr = true) :
    stepUser cfg u e st = st := by
  unfold stepUser
  cases hga : getActionType u.churnProbability cfg.thresholds with
  | none => rfl
  | some a =>
    rcases h with h | h
    · simp [hasRecentIntervention, h]
    · by_cases hrec : hasRecentIntervention st.ledger e.cooldownErr u.userId
          e.checkNow cfg.cooldownHours
      · simp [hrec]
      · simp [hrec, hasManualIntervention, h]

/-- Witness for C10: with an erroring cooldown query, a user above every
threshold over an empty ledger is skipped. -/
theorem gateError_skips_witness :
    envErr.cooldownErr = true ∧ stepUser cfgLive uHigh envErr stEmpty = stEmpty :=
  ⟨rfl, gateError_skips cfgLive uHigh envErr stEmpty (Or.inl rfl)⟩

/-- C9 counterexample: in dry-run mode an executed (simulated) action
increments `actionsThisCycle` but leaves `stats.actionsToday` at 0, because
`incrementActions()` is only called when `dryRun` is false — so the action
is not counted toward both counters as the claim states. -/
theorem dryRun_counts_cycle_not_today :
    (stepUser cfgDry uHigh envOk stEmpty).actionsThisCycle = 1 ∧
    (stepUser cfgDry uHigh envOk stEmpty).actionsToday = 0 := by
  norm_num [stepUser, getActionType, hasRecentIntervention, hasManualIntervention,
    cfgDry, cfgLive, tDefault, uHigh, envOk, stEmpty]

/-- C9 amended: a user passing the threshold, cooldown and human-priority
gates whose persist succeeds is counted toward the cycle budget
`actionsThisCycle`; it is counted toward the day counter `actionsToday`
only when `dryRun` is false. -/
theorem step_counts (cfg : SentinelConfig) (u : UserRisk) (e : StepEnv)
    (st : CycleState) (a : SentinelAction)
    (hga : getActionType u.churnProbability cfg.thresholds = some a)
    (hrec : hasRecentIntervention st.ledger e.cooldownErr u.userId e.checkNow
      cfg.cooldownHours = false)
    (hman : hasManualIntervention st.ledger e.manualErr u.userId e.checkNow
      cfg.humanPriorityHours = false)
    (hok : cfg.dryRun = true ∨ e.insertErr = false) :
    (stepUser cfg u e st).actionsThisCycle = st.actionsThisCycle + 1 ∧
    (stepUser cfg u e st).actionsToday =
      (if cfg.dryRun then st.actionsToday else st.actionsToday + 1) := by
  unfold stepUser
  rw [hga]
  cases hd : cfg.dryRun with
  | true => simp [hrec, hman, hd]
  | false =>
    rcases hok with hok | hok
    · rw [hd] at hok
      exact absurd hok (by simp)
    · simp [hrec, hman, hd, hok]

/-- Witness for C9 amended: a live (non-dry-run) action bumps both
counters from 0 to 1. -/
theorem step_counts_witness :
    getActionType uHigh.churnProbability cfgLive.thresholds =
      some SentinelAction.AUTO_OFFER ∧
    (stepUser cfgLive uHigh envOk stEmpty).actionsThisCycle = 1 ∧
    (stepUser cfgLive uHigh envOk stEmpty).actionsToday = 1 := by
  refine ⟨by norm_num [getActionType, cfgLive, tDefault, uHigh], ?_⟩
  have h := step_counts cfgLive uHigh envOk stEmpty SentinelAction.AUTO_OFFER
    (by norm_num [getActionType, cfgLive, tDefault, uHigh])
    (by simp [hasRecentIntervention, stEmpty, envOk])
    (by simp [hasManualIntervention, stEmpty, envOk]) (Or.inr rfl)
  simpa [cfgLive, stEmpty] using h

/-- C2 (code bug): the row inserted for a non-dry-run sentinel action has
`source = sentinel`, `status = completed`, `completedAt = now` and
`outcome = pending` as claimed, but `riskAtIntervention` is null even though
the churn probability 0.97 was known at decision time: `persistIntervention`
never writes `risk_at_intervention`. -/
theorem persist_omits_risk_snapshot :
    uHigh.churnProbability = 97/100 ∧
    getActionType uHigh.churnProbability cfgLive.thresholds =
      some SentinelAction.AUTO_OFFER ∧
    (stepUser cfgLive uHigh envOk stEmpty).ledger =
      [sentinelRecord 0 "u1" SentinelAction.AUTO_OFFER 1000000] ∧
    (sentinelRecord 0 "u1" SentinelAction.AUTO_OFFER 1000000).source =
      Source.sentinel ∧
    (sentinelRecord 0 "u1" SentinelAction.AUTO_OFFER 1000000).status =
      Status.completed ∧
    (sentinelRecord 0 "u1" SentinelAction.AUTO_OFFER 1000000).completedAt =
      some 1000000 ∧
    (sentinelRecord 0 "u1" SentinelAction.AUTO_OFFER 1000000).outcome =
      Outcome.pending ∧
    (sentinelRecord 0 "u1" SentinelAction.AUTO_OFFER 1000000).riskAtIntervention =
      none := by
  refine ⟨by norm_num [uHigh],
    by norm_num [getActionType, cfgLive, tDefault, uHigh], ?_, rfl, rfl, rfl, rfl, rfl⟩
  norm_num [stepUser, getActionType, hasRecentIntervention, hasManualIntervention,
    cfgLive, tDefault, uHigh, envOk, stEmpty]

/-- C5: under ordered thresholds, `getActionType` returns exactly the
highest tier whose threshold the risk meets, `none` below the nudge
threshold, and a below-nudge user leaves the whole loop body untouched. -/
theorem getActionType_tiers (t : Thresholds)
    (h1 : t.nudge < t.support) (h2 : t.support < t.offer) :
    (∀ r : Rat,
      ((getActionType r t = some SentinelAction.AUTO_OFFER) ↔ t.offer ≤ r) ∧
      ((getActionType r t = some SentinelAction.AUTO_SUPPORT) ↔
        t.support ≤ r ∧ r < t.offer) ∧
      ((getActionType r t = some SentinelAction.AUTO_NUDGE) ↔
        t.nudge ≤ r ∧ r < t.support) ∧
      ((getActionType r t = none) ↔ r < t.nudge)) ∧
    (∀ cfg : SentinelConfig, cfg.thresholds = t →
      ∀ u : UserRisk, u.churnProbability < t.nudge →
        ∀ e st, stepUser cfg u e st = st) := by
  constructor
  · intro r
    unfold getActionType
    split_ifs with ho hs hn
    · have hno : ¬ r < t.offer := not_lt.mpr ho
      have hns : ¬ r < t.support := not_lt.mpr (le_trans h2.le ho)
      have hnn : ¬ r < t.nudge := not_lt.mpr (le_trans (h1.trans h2).le ho)
      simp [ho, hno, hns, hnn]
    · have hlt : r < t.offer := not_le.mp ho
      have hns : ¬ r < t.support := not_lt.mpr hs
      have hnn : ¬ r < t.nudge := not_lt.mpr (le_trans h1.le hs)
      simp [ho, hs, hlt, hns, hnn]
    · have hlts : r < t.support := not_le.mp hs
      have hnn : ¬ r < t.nudge := not_lt.mpr hn
      simp [ho, hs, hn, hlts, hnn]
    · have hltn : r < t.nudge := not_le.mp hn
      simp [ho, hs, hn, hltn]
  · intro cfg hcfg u hu e st
    have hga : getActionType u.churnProbability cfg.thresholds = none := by
      unfold getActionType
      rw [hcfg,
        if_neg (not_le.mpr (hu.trans (h1.trans h2))),
        if_neg (not_le.mpr (hu.trans h1)),
        if_neg (not_le.mpr hu)]
    unfold stepUser
    rw [hga]

/-- Witness for C5: with the default thresholds a risk of 0.93 classifies
exactly to AUTO_SUPPORT. -/
theorem getActionType_tiers_witness :
    tDefault.nudge < tDefault.support ∧ tDefault.support < tDefault.offer ∧
    ((getActionType (93/100) tDefault = some SentinelAction.AUTO_SUPPORT) ↔
      tDefault.support ≤ 93/100 ∧ (93/100 : Rat) < tDefault.offer) :=
  ⟨by norm_num [tDefault], by norm_num [tDefault],
    ((getActionType_tiers tDefault (by norm_num [tDefault])
      (by norm_num [tDefault])).1 (93/100)).2.1⟩

/-- Helper: in dry-run mode one loop iteration leaves the ledger unchanged
and only ever emits events flagged as dry-run. -/
theorem stepUser_dryRun (cfg : SentinelConfig) (u : UserRisk) (e : StepEnv)
    (st : CycleState) (h : cfg.dryRun = true) :
    (stepUser cfg u e st).ledger = st.ledger ∧
    ∀ ev ∈ (stepUser cfg u e st).events, ev.dryRun = true ∨ ev ∈ st.events := by
  unfold stepUser
  cases getActionType u.churnProbability cfg.thresholds with
  | none => exact ⟨rfl, fun ev hev => Or.inr hev⟩
  | some a =>
    by_cases hrec : hasRecentIntervention st.ledger e.cooldownErr u.userId
        e.checkNow cfg.cooldownHours
    · simp only [hrec, if_true]
      exact ⟨True.intro, fun ev hev => Or.inr hev⟩
    · by_cases hman : hasManualIntervention st.ledger e.manualErr u.userId
          e.checkNow cfg.humanPriorityHours
      · simp only [hrec, hman, if_true, if_false, Bool.false_eq_true]
        exact ⟨True.intro, fun ev hev => Or.inr hev⟩
      · simp only [hrec, hman, h, if_true, if_false, Bool.false_eq_true]
        refine ⟨True.intro, fun ev hev => ?_⟩
        rcases List.mem_cons.mp hev with h1 | h1
        · exact Or.inl (h1 ▸ rfl)
        · exact Or.inr h1

/-- Helper: in dry-run mode the whole user loop leaves the ledger unchanged
and only adds dry-run events. -/
theorem runCycleLoop_dryRun (cfg : SentinelConfig) (h : cfg.dryRun = true) :
    ∀ (users : List (UserRisk × StepEnv)) (st : CycleState),
      (runCycleLoop cfg users st).ledger = st.ledger ∧
      ∀ ev ∈ (runCycleLoop cfg users st).events, ev.dryRun = true ∨ ev ∈ st.events
  | [], st => ⟨rfl, fun ev hev => Or.inr hev⟩
  | (u, e) :: rest, st => by
    unfold runCycleLoop
    by_cases hmax : cfg.maxActionsPerRun ≤ st.actionsThisCycle
    · simp only [hmax, if_true]
      exact ⟨True.intro, fun ev hev => Or.inr hev⟩
    · simp only [hmax, if_false]
      have hstep := stepUser_dryRun cfg u e st h
      have hrec := runCycleLoop_dryRun cfg h rest (stepUser cfg u e st)
      refine ⟨hrec.1.trans hstep.1, fun ev hev => ?_⟩
      rcases hrec.2 ev hev with h1 | h1
      · exact Or.inl h1
      · exact hstep.2 ev h1

/-- C7: a dry-run sentinel cycle writes zero new ledger rows for any input
batch, and every event it broadcasts is marked as a dry-run simulation. -/
theorem dryRun_no_ledger_rows (cfg : SentinelConfig)
    (users : List (UserRisk × StepEnv)) (ledger : List InterventionRecord)
    (actionsToday nextId : Nat) (h : cfg.dryRun = true) :
    (runSentinelCycle cfg users ledger actionsToday nextId).ledger = ledger ∧
    ∀ ev ∈ (runSentinelCycle cfg users ledger actionsToday nextId).events,
      ev.dryRun = true := by
  unfold runSentinelCycle
  by_cases he : cfg.enabled
  · simp only [he, if_true]
    have hloop := runCycleLoop_dryRun cfg h users ⟨ledger, 0, actionsToday, nextId, []⟩
    refine ⟨hloop.1, fun ev hev => ?_⟩
    rcases hloop.2 ev hev with h1 | h1
    · exact h1
    · cases h1
  · simp only [he, if_false, Bool.false_eq_true]
    exact ⟨True.intro, fun ev hev => absurd hev (List.not_mem_nil ev)⟩

/-- Witness for C7: a dry-run cycle over an eligible high-risk user leaves
the empty ledger empty. -/
theorem dryRun_no_ledger_rows_witness :
    cfgDry.dryRun = true ∧
    (runSentinelCycle cfgDry [(uHigh, envOk)] [] 0 0).ledger = [] :=
  ⟨rfl, (dryRun_no_ledger_rows cfgDry [(uHigh, envOk)] [] 0 0 rfl).1⟩

/-- Helper: one loop iteration adds a ledger row only if it also increments
the per-cycle action counter, and the counter grows by at most one. -/
theorem stepUser_budget (cfg : SentinelConfig) (u : UserRisk) (e : StepEnv)
    (st : CycleState) :
    (stepUser cfg u e st).ledger.length + st.actionsThisCycle ≤
      st.ledger.length + (stepUser cfg u e st).actionsThisCycle ∧
    (stepUser cfg u e st).actionsThisCycle ≤ st.actionsThisCycle + 1 := by
  unfold stepUser
  cases getActionType u.churnProbability cfg.thresholds with
  | none => exact ⟨le_refl _, Nat.le_succ _⟩
  | some a => split_ifs <;> simp <;> omega

/-- Helper: once the rate limit is reached the loop stops immediately. -/
theorem runCycleLoop_stopped (cfg : SentinelConfig)
    (users : List (UserRisk × StepEnv)) (st : CycleState)
    (h : cfg.maxActionsPerRun ≤ st.actionsThisCycle) :
    runCycleLoop cfg users st = st := by
  cases users with
  | nil => rfl
  | cons p rest =>
    cases p
    unfold runCycleLoop
    simp [h]

/-- Helper: the loop keeps `actionsThisCycle` within the budget and adds at
most `actionsThisCycle` growth many ledger rows. -/
theorem runCycleLoop_budget (cfg : SentinelConfig) :
    ∀ (users : List (UserRisk × StepEnv)) (st : CycleState),
      st.actionsThisCycle ≤ cfg.maxActionsPerRun →
      (runCycleLoop cfg users st).actionsThisCycle ≤ cfg.maxActionsPerRun ∧
      (runCycleLoop cfg users st).ledger.length + st.actionsThisCycle ≤
        st.ledger.length + (runCycleLoop cfg users st).actionsThisCycle
  | [], st, h => ⟨h, le_refl _⟩
  | (u, e) :: rest, st, h => by
    unfold runCycleLoop
    by_cases hmax : cfg.maxActionsPerRun ≤ st.actionsThisCycle
    · simp only [hmax, if_true]
      exact ⟨h, by omega⟩
    · simp only [hmax, if_false]
      have hstep := stepUser_budget cfg u e st
      have hstep2 : (stepUser cfg u e st).actionsThisCycle ≤ cfg.maxActionsPerRun := by
        omega
      have hrec := runCycleLoop_budget cfg rest (stepUser cfg u e st) hstep2
      exact ⟨hrec.1, by omega⟩

/-- C6: a sentinel cycle never creates more than `maxActionsPerRun` ledger
rows, and with `maxActionsPerRun = 0` the ledger is untouched. -/
theorem cycle_rate_limit (cfg : SentinelConfig)
    (users : List (UserRisk × StepEnv)) (ledger : List InterventionRecord)
    (actionsToday nextId : Nat) :
    (runSentinelCycle cfg users ledger actionsToday nextId).ledger.length ≤
      ledger.length + cfg.maxActionsPerRun ∧
    (cfg.maxActionsPerRun = 0 →
      (runSentinelCycle cfg users ledger actionsToday nextId).ledger = ledger) := by
  unfold runSentinelCycle
  by_cases he : cfg.enabled
  · simp only [he, if_true]
    constructor
    · have hb := runCycleLoop_budget cfg users ⟨ledger, 0, actionsToday, nextId, []⟩
        (Nat.zero_le _)
      have hb1 := hb.1
      have hb2 := hb.2
      simp only at hb2
      omega
    · intro h0
      rw [runCycleLoop_stopped cfg users _ (by simp [h0])]
  · simp only [he, if_false, Bool.false_eq_true]
    exact ⟨by omega, fun _ => True.intro⟩

/-- Witness for C6: with `maxActionsPerRun = 0` an otherwise eligible user
produces no row. -/
theorem cycle_rate_limit_witness :
    ({ cfgLive with maxActionsPerRun := 0 } : SentinelConfig).maxActionsPerRun = 0 ∧
    (runSentinelCycle { cfgLive with maxActionsPerRun := 0 }
      [(uHigh, envOk)] [] 0 0).ledger = [] :=
  ⟨rfl, (cycle_rate_limit { cfgLive with maxActionsPerRun := 0 }
    [(uHigh, envOk)] [] 0 0).2 rfl⟩

/-- C1 counterexample: a freshly inserted sentinel row satisfies the
spec's strict ledger invariant and is selected by the attribution window,
yet after the optimizer processes it with a zero risk delta the outcome is
still pending while `attributedAt` (and `riskDelta`, `currentRisk`) are
populated — the update writes all four fields regardless of the outcome, so
the "attributedAt iff finalized" invariant is broken. -/
theorem optimizer_stamps_pending_rows :
    ledgerInvStrict rPending ∧
    selectedForAttribution attrEnv0.now rPending = true ∧
    (attributeRecord attrEnv0 rPending).outcome = Outcome.pending ∧
    ¬ ledgerInvStrict (attributeRecord attrEnv0 rPending) := by
  have hcalc : attributeRecord attrEnv0 rPending =
      { rPending with
        outcome := Outcome.pending
        riskDelta := some 0
        currentRisk := some (1/2)
        attributedAt := some (48 * msPerHour) } := by
    norm_num [attributeRecord, selectedForAttribution, attrEnv0, rPending,
      sentinelRecord, jsOrHalf, determineOutcome, msPerHour]
  refine ⟨?_, ?_, ?_, ?_⟩
  · simp [ledgerInvStrict, rPending, sentinelRecord]
  · norm_num [selectedForAttribution, attrEnv0, rPending, sentinelRecord, msPerHour]
  · rw [hcalc]
  · rw [hcalc]
    simp [ledgerInvStrict, rPending, sentinelRecord]

/-- C1 amended: the invariant the code maintains is one-directional —
`attributedAt` is non-null whenever `outcome ≠ pending`, and `riskDelta`,
`currentRisk` are null exactly when `attributedAt` is. Sentinel inserts
start pending with all three null; the attribution update preserves the
invariant but populates all three fields for every row it processes, even
when the classification leaves `outcome = pending`, so such a row is never
re-selected by a future attribution window. -/
theorem ledger_invariant_amended :
    (∀ (id : Nat) (userId : String) (a : SentinelAction) (now : Int),
      recordInv (sentinelRecord id userId a now) ∧
      (sentinelRecord id userId a now).outcome = Outcome.pending) ∧
    (∀ (env : AttrEnv) (r : InterventionRecord),
      recordInv r → recordInv (attributeRecord env r)) ∧
    (∀ (env : AttrEnv) (r : InterventionRecord) (cur : Rat) (chn : Bool),
      selectedForAttribution env.now r = true → env.chosen r.id = true →
      env.risk r.userId = some (cur, chn) → env.updateErr r.id = false →
      (attributeRecord env r).attributedAt = some env.now ∧
      (attributeRecord env r).riskDelta ≠ none ∧
      (attributeRecord env r).currentRisk ≠ none ∧
      ∀ now2 : Int, selectedForAttribution now2 (attributeRecord env r) = false) := by
  refine ⟨?_, ?_, ?_⟩
  · intro id userId a now
    simp [recordInv, sentinelRecord]
  · intro env r hInv
    unfold attributeRecord
    split
    · split
      · exact hInv
      · split
        · exact hInv
        · simp [recordInv]
    · exact hInv
  · intro env r cur chn hsel hch hrisk herr
    unfold attributeRecord
    simp only [hsel, hch, Bool.and_self, hrisk, herr, Bool.false_eq_true,
      if_false, if_true, reduceIte]
    refine ⟨by simp, by simp, by simp, fun now2 => ?_⟩
    simp [selectedForAttribution]

/-- Witness for C1 amended: processing the concrete pending row populates
its attribution fields while preserving the code's invariant. -/
theorem ledger_invariant_amended_witness :
    recordInv rPending ∧
    recordInv (attributeRecord attrEnv0 rPending) ∧
    (attributeRecord attrEnv0 rPending).attributedAt = some attrEnv0.now := by
  have h1 : recordInv rPending := by simp [recordInv, rPending, sentinelRecord]
  refine ⟨h1, ledger_invariant_amended.2.1 attrEnv0 rPending h1, ?_⟩
  exact (ledger_invariant_amended.2.2 attrEnv0 rPending (1/2) false
    (by norm_num [selectedForAttribution, attrEnv0, rPending, sentinelRecord, msPerHour])
    rfl rfl rfl).1

/-- C4: a record whose outcome is already terminal (and which satisfies the
ledger invariant, as every reachable record does) is not selected by the
attribution window — `attributed_at` is non-null — and re-running the
optimizer leaves the record unchanged in any ledger containing it. -/
theorem attribution_idempotent (env : AttrEnv) (r : InterventionRecord)
    (hInv : recordInv r) (hout : r.outcome ≠ Outcome.pending) :
    selectedForAttribution env.now r = false ∧
    attributeRecord env r = r ∧
    ∀ ledger : List InterventionRecord, r ∈ ledger →
      r ∈ runAttributionCycle env ledger := by
  have hattr : r.attributedAt ≠ none := hInv.1 hout
  obtain ⟨t, ht⟩ := Option.ne_none_iff_exists'.mp hattr
  have hsel : selectedForAttribution env.now r = false := by
    simp [selectedForAttribution, ht]
  have heq : attributeRecord env r = r := by
    unfold attributeRecord
    rw [if_neg]
    rw [hsel]
    simp
  exact ⟨hsel, heq, fun ledger hr => List.mem_map.mpr ⟨r, hr, heq⟩⟩

/-- Witness for C4: the concrete attributed success row is untouched by a
further attribution cycle. -/
theorem attribution_idempotent_witness :
    recordInv rDone ∧ rDone.outcome ≠ Outcome.pending ∧
    attributeRecord attrEnv0 rDone = rDone := by
  have h1 : recordInv rDone := by simp [recordInv, rDone, rPending, sentinelRecord]
  have h2 : rDone.outcome ≠ Outcome.pending := by
    simp [rDone, rPending, sentinelRecord]
  exact ⟨h1, h2, (attribution_idempotent attrEnv0 rDone h1 h2).2.1⟩

/-- Helper: when the cooldown query reports no recent intervention, every
ledger row of that user was created strictly before the cutoff. -/
theorem hasRecent_false_far (ledger : List InterventionRecord) (err : Bool)
    (userId : String) (now hours : Int)
    (h : hasRecentIntervention ledger err userId now hours = false) :
    ∀ r ∈ ledger, r.userId = userId →
      r.createdAt < now - hours * msPerHour := by
  intro r hr hu
  unfold hasRecentIntervention at h
  by_cases he : err = true
  · rw [if_pos he] at h
    cases h
  · rw [if_neg he, List.any_eq_false] at h
    have hfr := h r hr
    simp only [Bool.and_eq_true, decide_eq_true_eq, not_and] at hfr
    exact not_le.mp (hfr hu)

/-- Helper: one loop iteration preserves pairwise cooldown separation of
same-user sentinel rows, given the insert clock is not behind the gate
clock. -/
theorem stepUser_pairwise (cfg : SentinelConfig) (u : UserRisk) (e : StepEnv)
    (st : CycleState) (hwf : e.checkNow ≤ e.insertNow)
    (hp : List.Pairwise (farOK (cfg.cooldownHours * msPerHour)) st.ledger) :
    List.Pairwise (farOK (cfg.cooldownHours * msPerHour))
      (stepUser cfg u e st).ledger := by
  unfold stepUser
  cases getActionType u.churnProbability cfg.thresholds with
  | none => exact hp
  | some a =>
    by_cases hrec : hasRecentIntervention st.ledger e.cooldownErr u.userId
        e.checkNow cfg.cooldownHours = true
    · simp only [hrec, if_true]
      exact hp
    · have hrec' : hasRecentIntervention st.ledger e.cooldownErr u.userId
          e.checkNow cfg.cooldownHours = false := by
        simpa using hrec
      by_cases hman : hasManualIntervention st.ledger e.manualErr u.userId
          e.checkNow cfg.humanPriorityHours = true
      · simp only [hrec', hman, Bool.false_eq_true, if_false, if_true]
        exact hp
      · have hman' : hasManualIntervention st.ledger e.manualErr u.userId
            e.checkNow cfg.humanPriorityHours = false := by
          simpa using hman
        by_cases hdry : cfg.dryRun = true
        · simp only [hrec', hman', hdry, Bool.false_eq_true, if_false, if_true]
          exact hp
        · have hdry' : cfg.dryRun = false := by simpa using hdry
          by_cases hins : e.insertErr = true
          · simp only [hrec', hman', hdry', hins, Bool.false_eq_true, if_false,
              if_true]
            exact hp
          · have hins' : e.insertErr = false := by simpa using hins
            simp only [hrec', hman', hdry', hins', Bool.false_eq_true, if_false]
            refine List.Pairwise.cons ?_ hp
            intro r hr hs1 hs2 huid
            have hlt := hasRecent_false_far st.ledger e.cooldownErr u.userId
              e.checkNow cfg.cooldownHours hrec' r hr huid.symm
            left
            show cfg.cooldownHours * msPerHour ≤ e.insertNow - r.createdAt
            linarith

/-- Helper: the user loop preserves pairwise cooldown separation. -/
theorem runCycleLoop_pairwise (cfg : SentinelConfig) :
    ∀ (users : List (UserRisk × StepEnv)) (st : CycleState),
      (∀ p ∈ users, p.2.checkNow ≤ p.2.insertNow) →
      List.Pairwise (farOK (cfg.cooldownHours * msPerHour)) st.ledger →
      List.Pairwise (farOK (cfg.cooldownHours * msPerHour))
        (runCycleLoop cfg users st).ledger
  | [], _, _, hp => hp
  | (u, e) :: rest, st, hwf, hp => by
    unfold runCycleLoop
    by_cases hmax : cfg.maxActionsPerRun ≤ st.actionsThisCycle
    · rw [if_pos hmax]
      exact hp
    · rw [if_neg hmax]
      exact runCycleLoop_pairwise cfg rest (stepUser cfg u e st)
        (fun p hpmem => hwf p (List.mem_cons_of_mem _ hpmem))
        (stepUser_pairwise cfg u e st (hwf (u, e) (List.mem_cons_self _ _)) hp)

/-- C8: any two same-user sentinel-sourced rows stay at least
`cooldownHours` apart in creation time across any sentinel cycle run from a
ledger already satisfying the separation (the gate query sees every
previously inserted row, including rows inserted earlier in the same
cycle); moreover a user with any recent intervention is skipped outright. -/
theorem cooldown_invariant (cfg : SentinelConfig)
    (users : List (UserRisk × StepEnv)) (ledger : List InterventionRecord)
    (actionsToday nextId : Nat)
    (hwf : ∀ p ∈ users, p.2.checkNow ≤ p.2.insertNow)
    (hp : List.Pairwise (farOK (cfg.cooldownHours * msPerHour)) ledger) :
    List.Pairwise (farOK (cfg.cooldownHours * msPerHour))
      (runSentinelCycle cfg users ledger actionsToday nextId).ledger ∧
    ∀ (u : UserRisk) (e : StepEnv) (st : CycleState),
      hasRecentIntervention st.ledger e.cooldownErr u.userId e.checkNow
        cfg.cooldownHours = true →
      stepUser cfg u e st = st := by
  constructor
  · unfold runSentinelCycle
    by_cases he : cfg.enabled = true
    · rw [if_pos he]
      exact runCycleLoop_pairwise cfg users ⟨ledger, 0, actionsToday, nextId, []⟩
        hwf hp
    · rw [if_neg he]
      exact hp
  · intro u e st htrue
    unfold stepUser
    cases getActionType u.churnProbability cfg.thresholds with
    | none => rfl
    | some a => simp [htrue]

/-- Witness for C8: a live cycle over one eligible user starting from the
empty ledger yields a pairwise-separated ledger. -/
theorem cooldown_invariant_witness :
    (∀ p ∈ [(uHigh, envOk)], p.2.checkNow ≤ p.2.insertNow) ∧
    List.Pairwise (farOK (cfgLive.cooldownHours * msPerHour))
      (runSentinelCycle cfgLive [(uHigh, envOk)] [] 0 0).ledger := by
  have hwf : ∀ p ∈ [(uHigh, envOk)], p.2.checkNow ≤ p.2.insertNow := by
    intro p hp
    rw [List.mem_singleton] at hp
    subst hp
    exact le_refl _
  exact ⟨hwf,
    (cooldown_invariant cfgLive [(uHigh, envOk)] [] 0 0 hwf List.Pairwise.nil).1⟩

end ChurnGuard
